import Mathlib

/-!
# Verification of the libratone LAN controller core

Shallow embedding of the Rust sources (`src/protocol.rs`, `src/commands.rs`,
`src/discovery_reply.rs`, `src/device.rs`) of the libratone speaker
controller, together with proofs about the wire codec, the command catalog,
the discovery parser and the device manager.

Modelling conventions:
* Rust machine integers (`u8`, `u16`, `usize`) are modelled as `Nat`; where a
  theorem depends on the machine range it carries an explicit bound (`< 256`,
  `< 65536`) or a `% 2 ^ w` reduction.
* Byte strings (`&[u8]`, `Vec<u8>`) are `List Nat` whose elements are below
  256 by convention; theorems that need the bound state it.
* A Rust `String`/`str` is a sequence of Unicode scalar values, i.e.
  `List Char` (a Lean `Char` is exactly a Unicode scalar value).
* `anyhow::Result<T>` is `RResult T` below; the error is the formatted
  message string, matching the `anyhow!` literals of the source.
* A Rust `panic!` is modelled by the `PanicOr` type: `.panicked msg` is an
  abort, distinct from every `RResult` error value.
-/

namespace Libratone

/-- Model of `anyhow::Result<α>`: either `Ok` or an error message. -/
inductive RResult (α : Type) : Type
  | ok (val : α)
  | err (msg : String)
deriving DecidableEq, Repr

instance : Monad RResult where
  pure := .ok
  bind x f := match x with
    | .ok v => f v
    | .err m => .err m

/-- Outcome of a Rust computation that can `panic!`: normal completion or an
abort carrying the panic message.  A panic is not a `Result` error: it
unwinds/aborts instead of being surfaced to the caller. -/
inductive PanicOr (α : Type) : Type
  | ok (val : α)
  | panicked (msg : String)
deriving DecidableEq, Repr

/-! ## Ports (`src/protocol.rs`) -/

def CMD_SEND_PORT : Nat := 7777
def CMD_RESP_PORT : Nat := 7778
def NOTIF_RECV_PORT : Nat := 3333
def NOTIF_ACK_PORT : Nat := 3334

/-- `std::net::IpAddr`, modelled for IPv4 literals (the only family the
repository's claims exercise; an IPv6 literal is represented by its raw
segment list). -/
inductive IpAddr : Type
  | v4 (a b c d : Nat)
deriving DecidableEq, Repr

/-- `std::net::SocketAddr`: an IP address plus a port. -/
structure SocketAddr where
  ip : IpAddr
  port : Nat
deriving DecidableEq, Repr

/-! ## Packet codec (`src/protocol.rs`) -/

/-- `HEADER_LEN` from `Packet::parse`. -/
def HEADER_LEN : Nat := 10

/-- `protocol::Packet`: `command_type: u8`, `command: u16`,
`command_data: Option<Vec<u8>>`. -/
structure Packet where
  command_type : Nat
  command : Nat
  command_data : Option (List Nat)
deriving DecidableEq, Repr

/-- `Packet::parse`.  Mirrors the Rust source: a short-frame check, the
big-endian declared length read from bytes 8 and 9 (`(data[8] as u16) << 8 |
data[9] as u16`), the length-consistency check, and extraction of
`command_type` (byte 2), `command` (bytes 3..4 big-endian) and the payload.
The error strings are the `anyhow!` literals of the source. -/
def Packet.parse (data : List Nat) : RResult Packet :=
  if data.length < HEADER_LEN then .err "packet is too short"
  else
    let data_len : Nat := ((data.getD 8 0) <<< 8) ||| (data.getD 9 0)
    if HEADER_LEN + data_len ≠ data.length then .err "incorrect packet length"
    else
      let command_type : Nat := data.getD 2 0
      let command : Nat := ((data.getD 3 0) <<< 8) ||| (data.getD 4 0)
      let command_data : Option (List Nat) :=
        if data_len > 0 then some (data.drop HEADER_LEN) else none
      .ok { command_type, command, command_data }

/-- `Packet::data`, the encoder.  `self.command_data.as_ref().map_or(0, |x|
x.len())` is the payload length; the header stores `(data_len & 0xff00) >> 8`
and `data_len & 0xff` (so only the low 16 bits of the length), plus the fixed
magic `0xaa 0xaa`, the status byte `0x00` and the two nonce bytes
`0x12 0x34`. -/
def Packet.data (p : Packet) : List Nat :=
  let data_len : Nat := (p.command_data.map List.length).getD 0
  let packet_data : List Nat :=
    [0xaa, 0xaa, p.command_type,
     (p.command &&& 0xff00) >>> 8, p.command &&& 0xff,
     0x00, 0x12, 0x34,
     (data_len &&& 0xff00) >>> 8, data_len &&& 0xff]
  match p.command_data with
  | some command_data => packet_data ++ command_data
  | none => packet_data

/-! ### Bit-twiddling bridge lemmas -/

theorem and_ff_eq_mod (n : Nat) : n &&& 0xff = n % 256 :=
  Nat.and_pow_two_sub_one_eq_mod n 8

theorem shiftLeft_lor_eq_add (a b : Nat) (hb : b < 256) :
    (a <<< 8) ||| b = a * 256 + b := by
  apply Nat.eq_of_testBit_eq
  intro i
  rw [Nat.testBit_lor, Nat.testBit_shiftLeft]
  rcases Nat.lt_or_ge i 8 with hi | hi
  · have h1 : (decide (i ≥ 8) && a.testBit (i - 8)) = false := by
      simp [Nat.not_le.mpr hi]
    rw [h1]
    have h2 : (a * 256 + b).testBit i = ((a * 256 + b) % 2 ^ 8).testBit i := by
      rw [Nat.testBit_mod_two_pow]
      simp [hi]
    have h3 : (a * 256 + b) % 2 ^ 8 = b := by
      have : (2 : Nat) ^ 8 = 256 := by norm_num
      rw [this]
      omega
    rw [h2, h3]
    simp
  · have hb' : b.testBit i = false := by
      apply Nat.testBit_lt_two_pow
      have : (256 : Nat) ≤ 2 ^ i := by
        calc (256 : Nat) = 2 ^ 8 := by norm_num
          _ ≤ 2 ^ i := Nat.pow_le_pow_right (by norm_num) hi
      omega
    rw [hb']
    have hdiv : (a * 256 + b) >>> 8 = a := by
      rw [Nat.shiftRight_eq_div_pow]
      have : (2 : Nat) ^ 8 = 256 := by norm_num
      rw [this]
      omega
    have h5 := Nat.testBit_shiftRight (i := 8) (j := i - 8) (a * 256 + b)
    rw [hdiv] at h5
    have h6 : 8 + (i - 8) = i := by omega
    rw [h6] at h5
    rw [← h5]
    simp [hi]

theorem and_ff00_shiftRight (n : Nat) : (n &&& 0xff00) >>> 8 = n / 256 % 256 := by
  apply Nat.eq_of_testBit_eq
  intro i
  rw [Nat.testBit_shiftRight, Nat.testBit_and]
  have hmask : (0xff00 : Nat) = (2 ^ 8 - 1) <<< 8 := by
    rw [Nat.shiftLeft_eq]
    omega
  rw [hmask, Nat.testBit_shiftLeft, Nat.testBit_two_pow_sub_one]
  have hdiv : n / 256 = n >>> 8 := by
    rw [Nat.shiftRight_eq_div_pow]
  have hmod : (n / 256 % 256).testBit i = ((n >>> 8) % 2 ^ 8).testBit i := by
    rw [hdiv]
    norm_num
  rw [hmod, Nat.testBit_mod_two_pow, Nat.testBit_shiftRight]
  have h8 : 8 + i - 8 = i := by omega
  rw [h8]
  by_cases hi : i < 8
  · simp [hi, Nat.le_add_right]
  · simp [hi]

/-- The big-endian 16-bit length field written by the encoder, recombined the
way the parser recombines it, is the payload length reduced modulo `2 ^ 16`. -/
theorem encode_declared_len (L : Nat) :
    ((((L &&& 0xff00) >>> 8) <<< 8) ||| (L &&& 0xff)) = L % 65536 := by
  rw [and_ff_eq_mod, and_ff00_shiftRight,
    shiftLeft_lor_eq_add _ _ (Nat.mod_lt _ (by norm_num))]
  omega

/-! ### Packet codec lemmas -/

theorem packet_data_some (ct cmd : Nat) (b : List Nat) :
    Packet.data ⟨ct, cmd, some b⟩ =
      0xaa :: 0xaa :: ct :: ((cmd &&& 0xff00) >>> 8) :: (cmd &&& 0xff) ::
      0x00 :: 0x12 :: 0x34 ::
      ((b.length &&& 0xff00) >>> 8) :: (b.length &&& 0xff) :: b := by
  simp [Packet.data]

theorem packet_data_none (ct cmd : Nat) :
    Packet.data ⟨ct, cmd, none⟩ =
      [0xaa, 0xaa, ct, (cmd &&& 0xff00) >>> 8, cmd &&& 0xff,
       0x00, 0x12, 0x34, 0, 0] := by
  simp [Packet.data]

theorem packet_parse_cons (a0 a1 a2 a3 a4 a5 a6 a7 a8 a9 : Nat) (rest : List Nat) :
    Packet.parse (a0 :: a1 :: a2 :: a3 :: a4 :: a5 :: a6 :: a7 :: a8 :: a9 :: rest) =
      (if 10 + ((a8 <<< 8) ||| a9) ≠ 10 + rest.length then .err "incorrect packet length"
       else .ok { command_type := a2, command := (a3 <<< 8) ||| a4,
                  command_data :=
                    if ((a8 <<< 8) ||| a9) > 0 then some rest else none }) := by
  unfold Packet.parse
  simp only [HEADER_LEN, List.getD]
  simp
  rw [if_neg (by omega)]
  by_cases h : (a8 <<< 8 ||| a9) = rest.length
  · rw [if_pos (by omega), if_pos h]
  · rw [if_neg (by omega), if_neg h]

theorem getD_lt_256 (l : List Nat) (h : ∀ x ∈ l, x < 256) (i : Nat) :
    l.getD i 0 < 256 := by
  rcases Nat.lt_or_ge i l.length with hi | hi
  · rw [List.getD_eq_getElem l 0 hi]
    exact h _ (List.getElem_mem hi)
  · rw [List.getD_eq_default l 0 hi]
    norm_num

/-- C3 (counterexample).  The round-trip claim is false as stated: the packet
`{command_type = 2, command = 14, command_data = Some(vec![])}` encodes to a
frame with declared length 0, which parses back with `command_data = None`,
not `Some([])`. -/
theorem packet_roundtrip_fails_on_empty_some :
    Packet.parse (Packet.data
        { command_type := 2, command := 14, command_data := some [] }) =
      .ok { command_type := 2, command := 14, command_data := none } ∧
    Packet.parse (Packet.data
        { command_type := 2, command := 14, command_data := some [] }) ≠
      .ok { command_type := 2, command := 14, command_data := some [] } := by
  decide

/-- C3 (amended).  `parse ∘ encode` preserves `(command_type, command,
command_data)` for every packet whose `command` fits in 16 bits (as every
Rust `u16` does) and whose payload, when present, is non-empty and shorter
than `2 ^ 16` bytes.  A `Some(vec![])` payload collapses to `None`
(see the counterexample), and payloads of 65536 bytes or more fail to parse
(see the C10 theorem). -/
theorem packet_parse_data_roundtrip (p : Packet) (hcmd : p.command < 65536) :
    (p.command_data = none → Packet.parse (Packet.data p) = .ok p) ∧
    (∀ b, p.command_data = some b → 0 < b.length → b.length < 65536 →
      Packet.parse (Packet.data p) = .ok p) := by
  obtain ⟨ct, cmd, cdata⟩ := p
  simp only at hcmd
  constructor
  · rintro rfl
    rw [packet_data_none, packet_parse_cons, encode_declared_len,
      Nat.mod_eq_of_lt hcmd]
    norm_num
  · rintro b rfl hpos hlen
    rw [packet_data_some]
    rw [packet_parse_cons]
    rw [encode_declared_len, encode_declared_len, Nat.mod_eq_of_lt hcmd,
      Nat.mod_eq_of_lt hlen]
    simp [hpos]

/-- C3 (witness): the round-trip at the repository's own test vector
`{command_type = 2, command = 14, command_data = Some([0x30])}`. -/
theorem packet_parse_data_roundtrip_witness :
    Packet.parse (Packet.data
        { command_type := 2, command := 14, command_data := some [0x30] }) =
      .ok { command_type := 2, command := 14, command_data := some [0x30] } :=
  (packet_parse_data_roundtrip _ (by norm_num)).2 [0x30] rfl (by decide) (by decide)

/-- C4 (confirmed).  `Packet::parse` fails with the short-frame error exactly
when the input has fewer than 10 bytes; for inputs of at least 10 bytes it
fails with the length-mismatch error exactly when ten plus the big-endian
length declared in bytes 8..9 differs from the input length; on success the
parsed `command_data` is `None` exactly when the declared length is zero and
otherwise it is the payload after the 10-byte header. -/
theorem packet_parse_characterization (data : List Nat)
    (hb : ∀ x ∈ data, x < 256) :
    (Packet.parse data = .err "packet is too short" ↔ data.length < 10) ∧
    (Packet.parse data = .err "incorrect packet length" ↔
      (10 ≤ data.length ∧
        10 + (data.getD 8 0 * 256 + data.getD 9 0) ≠ data.length)) ∧
    (∀ p, Packet.parse data = .ok p →
      p.command_type = data.getD 2 0 ∧
      p.command = data.getD 3 0 * 256 + data.getD 4 0 ∧
      (p.command_data = none ↔ data.getD 8 0 * 256 + data.getD 9 0 = 0) ∧
      (0 < data.getD 8 0 * 256 + data.getD 9 0 →
        p.command_data = some (data.drop 10))) := by
  have h9 := getD_lt_256 data hb 9
  have h4 := getD_lt_256 data hb 4
  have hdecl : ((data.getD 8 0) <<< 8) ||| (data.getD 9 0) =
      data.getD 8 0 * 256 + data.getD 9 0 := shiftLeft_lor_eq_add _ _ h9
  have hcmd : ((data.getD 3 0) <<< 8) ||| (data.getD 4 0) =
      data.getD 3 0 * 256 + data.getD 4 0 := shiftLeft_lor_eq_add _ _ h4
  unfold Packet.parse
  rw [hdecl, hcmd]
  simp only [HEADER_LEN]
  split_ifs with h1 h2 h3
  · refine ⟨⟨fun _ => h1, fun _ => rfl⟩, ⟨?_, ?_⟩, ?_⟩
    · intro h
      exact absurd h (by simp)
    · intro ⟨hge, _⟩
      omega
    · intro p h
      exact absurd h (by simp)
  · refine ⟨⟨?_, fun h => absurd h h1⟩,
      ⟨fun _ => ⟨by omega, h2⟩, fun _ => rfl⟩, ?_⟩
    · intro h
      exact absurd h (by simp)
    · intro p h
      exact absurd h (by simp)
  · refine ⟨⟨fun h => absurd h (by simp), fun h => absurd h h1⟩,
      ⟨fun h => absurd h (by simp), fun h => absurd h.2 h2⟩, ?_⟩
    intro p h
    rw [RResult.ok.injEq] at h
    subst h
    refine ⟨rfl, rfl, ⟨fun h => ?_, fun h => ?_⟩, fun _ => rfl⟩
    · simp at h
    · exact absurd h (by omega)
  · refine ⟨⟨fun h => absurd h (by simp), fun h => absurd h h1⟩,
      ⟨fun h => absurd h (by simp), fun h => absurd h.2 h2⟩, ?_⟩
    intro p h
    rw [RResult.ok.injEq] at h
    subst h
    refine ⟨rfl, rfl, ⟨fun _ => by omega, fun _ => rfl⟩, fun hD => absurd hD h3⟩

/-- C4 (witness): the byte-boundedness hypothesis holds at the repository's
own 11-byte test frame, and the theorem applies there. -/
theorem packet_parse_characterization_witness :
    (∀ x ∈ ([0xaa, 0xaa, 0x02, 0x00, 0x0e, 0x01, 0x00, 0x00, 0x00, 0x01, 0x30] :
        List Nat), x < 256) ∧
    (Packet.parse [0xaa, 0xaa, 0x02, 0x00, 0x0e, 0x01, 0x00, 0x00, 0x00, 0x01, 0x30] =
        .err "packet is too short" ↔
      ([0xaa, 0xaa, 0x02, 0x00, 0x0e, 0x01, 0x00, 0x00, 0x00, 0x01, 0x30] :
        List Nat).length < 10) :=
  ⟨by decide, (packet_parse_characterization _ (by decide)).1⟩

/-- C10 (confirmed).  The encoder is total: it always emits the 10-byte
header followed by the whole payload, whatever the payload length; bytes
8..9 carry only the low 16 bits of that length, and therefore every packet
whose payload has 65536 bytes or more encodes to a frame that `Packet::parse`
rejects with the length-mismatch error. -/
theorem packet_data_total_and_truncates (p : Packet) :
    (Packet.data p).length =
      HEADER_LEN + (p.command_data.map List.length).getD 0 ∧
    (∀ b, p.command_data = some b →
      (Packet.data p).getD 8 0 * 256 + (Packet.data p).getD 9 0 =
        b.length % 65536 ∧
      (65536 ≤ b.length →
        Packet.parse (Packet.data p) = .err "incorrect packet length")) := by
  obtain ⟨ct, cmd, cdata⟩ := p
  constructor
  · cases cdata with
    | none => simp [Packet.data, HEADER_LEN]
    | some b =>
      simp [Packet.data, HEADER_LEN]
      omega
  · rintro b rfl
    constructor
    · rw [packet_data_some]
      have ha : ((b.length &&& 0xff00) >>> 8) = b.length / 256 % 256 :=
        and_ff00_shiftRight _
      have hb : (b.length &&& 0xff) = b.length % 256 := and_ff_eq_mod _
      have h8 : (0xaa :: 0xaa :: ct :: ((cmd &&& 0xff00) >>> 8) :: (cmd &&& 0xff) ::
          0x00 :: 0x12 :: 0x34 ::
          ((b.length &&& 0xff00) >>> 8) :: (b.length &&& 0xff) :: b).getD 8 0 =
          ((b.length &&& 0xff00) >>> 8) := rfl
      have h9 : (0xaa :: 0xaa :: ct :: ((cmd &&& 0xff00) >>> 8) :: (cmd &&& 0xff) ::
          0x00 :: 0x12 :: 0x34 ::
          ((b.length &&& 0xff00) >>> 8) :: (b.length &&& 0xff) :: b).getD 9 0 =
          (b.length &&& 0xff) := rfl
      rw [h8, h9, ha, hb]
      omega
    · intro hge
      rw [packet_data_some, packet_parse_cons, encode_declared_len]
      have : b.length % 65536 ≠ b.length := by
        have := Nat.mod_lt b.length (y := 65536) (by norm_num)
        omega
      rw [if_pos (by omega)]

/-- C10 (witness): at a packet with a 65536-byte payload the encoded frame
declares length 0 and fails to re-parse. -/
theorem packet_data_total_and_truncates_witness :
    (some (List.replicate 65536 0) = some (List.replicate 65536 0)) ∧
    Packet.parse (Packet.data
        { command_type := 1, command := 2,
          command_data := some (List.replicate 65536 0) }) =
      .err "incorrect packet length" :=
  ⟨rfl, ((packet_data_total_and_truncates _).2 _ rfl).2
    (by rw [List.length_replicate])⟩

/-! ## UTF-8 model (Rust `str::as_bytes` / `String::from_utf8_lossy`)

A Rust `String` is a sequence of Unicode scalar values, modelled as
`List Char`.  `as_bytes` is UTF-8 encoding; `from_utf8_lossy` decodes,
replacing every invalid sequence by U+FFFD.  The decoder carries a fuel
argument that decreases once per decoded character; since every character
consumes at least one input byte, `l.length` fuel is always enough, so
`utf8Lossy` below is total and executable.  (On invalid input the exact
number of replacement characters may differ from Rust's "maximal subpart"
substitution; no claim depends on decoding invalid input.) -/


def replacementChar : Char := Char.ofNat 0xFFFD

def utf8EncodeChar (c : Char) : List Nat :=
  if c.toNat < 0x80 then [c.toNat]
  else if c.toNat < 0x800 then [0xC0 + c.toNat / 64, 0x80 + c.toNat % 64]
  else if c.toNat < 0x10000 then
    [0xE0 + c.toNat / 4096, 0x80 + c.toNat / 64 % 64, 0x80 + c.toNat % 64]
  else
    [0xF0 + c.toNat / 262144, 0x80 + c.toNat / 4096 % 64,
     0x80 + c.toNat / 64 % 64, 0x80 + c.toNat % 64]

def utf8Encode (s : List Char) : List Nat := (s.map utf8EncodeChar).flatten

def utf8LossyGo : Nat → List Nat → List Char
  | 0, _ => []
  | _ + 1, [] => []
  | fuel + 1, b :: bs =>
    if b < 0x80 then Char.ofNat b :: utf8LossyGo fuel bs
    else if b < 0xC2 then replacementChar :: utf8LossyGo fuel bs
    else if b < 0xE0 then
      match bs with
      | b1 :: bs1 =>
        if 0x80 ≤ b1 ∧ b1 < 0xC0 then
          Char.ofNat ((b - 0xC0) * 64 + (b1 - 0x80)) :: utf8LossyGo fuel bs1
        else replacementChar :: utf8LossyGo fuel bs
      | [] => replacementChar :: utf8LossyGo fuel bs
    else if b < 0xF0 then
      match bs with
      | b1 :: b2 :: bs2 =>
        if (0x80 ≤ b1 ∧ b1 < 0xC0) ∧ (0x80 ≤ b2 ∧ b2 < 0xC0) then
          if 0x800 ≤ (b - 0xE0) * 4096 + (b1 - 0x80) * 64 + (b2 - 0x80) ∧
              ¬(0xD800 ≤ (b - 0xE0) * 4096 + (b1 - 0x80) * 64 + (b2 - 0x80) ∧
                (b - 0xE0) * 4096 + (b1 - 0x80) * 64 + (b2 - 0x80) < 0xE000) then
            Char.ofNat ((b - 0xE0) * 4096 + (b1 - 0x80) * 64 + (b2 - 0x80)) ::
              utf8LossyGo fuel bs2
          else replacementChar :: utf8LossyGo fuel bs
        else replacementChar :: utf8LossyGo fuel bs
      | _ => replacementChar :: utf8LossyGo fuel bs
    else if b < 0xF5 then
      match bs with
      | b1 :: b2 :: b3 :: bs3 =>
        if (0x80 ≤ b1 ∧ b1 < 0xC0) ∧ (0x80 ≤ b2 ∧ b2 < 0xC0) ∧
            (0x80 ≤ b3 ∧ b3 < 0xC0) then
          if 0x10000 ≤ (b - 0xF0) * 262144 + (b1 - 0x80) * 4096 +
                (b2 - 0x80) * 64 + (b3 - 0x80) ∧
              (b - 0xF0) * 262144 + (b1 - 0x80) * 4096 +
                (b2 - 0x80) * 64 + (b3 - 0x80) < 0x110000 then
            Char.ofNat ((b - 0xF0) * 262144 + (b1 - 0x80) * 4096 +
              (b2 - 0x80) * 64 + (b3 - 0x80)) :: utf8LossyGo fuel bs3
          else replacementChar :: utf8LossyGo fuel bs
        else replacementChar :: utf8LossyGo fuel bs
      | _ => replacementChar :: utf8LossyGo fuel bs
    else replacementChar :: utf8LossyGo fuel bs

def utf8Lossy (l : List Nat) : List Char := utf8LossyGo l.length l

example : utf8Lossy (utf8Encode ['a', 'é', '€', '𝄞']) = ['a', 'é', '€', '𝄞'] := by
  decide

example : utf8Lossy [0x61, 0xFF, 0x62] = ['a', replacementChar, 'b'] := by decide

theorem char_valid_ranges (c : Char) :
    c.toNat < 0xD800 ∨ (0xE000 ≤ c.toNat ∧ c.toNat < 0x110000) := by
  have h : c.val.toNat < 55296 ∨ (57343 < c.val.toNat ∧ c.val.toNat < 1114112) :=
    c.valid
  have he : c.toNat = c.val.toNat := rfl
  rw [he]
  omega

theorem utf8LossyGo_nil (fuel : Nat) : utf8LossyGo fuel [] = [] := by
  cases fuel <;> rfl

theorem utf8LossyGo_encodeChar (c : Char) (tail : List Nat) (fuel : Nat) :
    utf8LossyGo (fuel + 1) (utf8EncodeChar c ++ tail) =
      c :: utf8LossyGo fuel tail := by
  have hv := char_valid_ranges c
  have hofNat : Char.ofNat c.toNat = c := Char.ofNat_toNat c
  by_cases h1 : c.toNat < 0x80
  · rw [show utf8EncodeChar c = [c.toNat] from by rw [utf8EncodeChar, if_pos h1]]
    simp only [List.append_eq, List.cons_append, List.nil_append, utf8LossyGo, if_pos h1, hofNat]
  · by_cases h2 : c.toNat < 0x800
    · rw [show utf8EncodeChar c = [0xC0 + c.toNat / 64, 0x80 + c.toNat % 64] from by
        rw [utf8EncodeChar, if_neg h1, if_pos h2]]
      have hb : ¬(0xC0 + c.toNat / 64 < 0x80) := by omega
      have hb2 : ¬(0xC0 + c.toNat / 64 < 0xC2) := by omega
      have hb3 : 0xC0 + c.toNat / 64 < 0xE0 := by omega
      have hc1 : 0x80 ≤ 0x80 + c.toNat % 64 ∧ 0x80 + c.toNat % 64 < 0xC0 := by omega
      have hval : (0xC0 + c.toNat / 64 - 0xC0) * 64 + (0x80 + c.toNat % 64 - 0x80) =
          c.toNat := by omega
      simp only [List.append_eq, List.cons_append, List.nil_append, utf8LossyGo,
        if_neg hb, if_neg hb2, if_pos hb3, if_pos hc1, hval, hofNat]
    · by_cases h3 : c.toNat < 0x10000
      · rw [show utf8EncodeChar c =
            [0xE0 + c.toNat / 4096, 0x80 + c.toNat / 64 % 64, 0x80 + c.toNat % 64] from by
          rw [utf8EncodeChar, if_neg h1, if_neg h2, if_pos h3]]
        have hb : ¬(0xE0 + c.toNat / 4096 < 0x80) := by omega
        have hb2 : ¬(0xE0 + c.toNat / 4096 < 0xC2) := by omega
        have hb3 : ¬(0xE0 + c.toNat / 4096 < 0xE0) := by omega
        have hb4 : 0xE0 + c.toNat / 4096 < 0xF0 := by omega
        have hc1 : (0x80 ≤ 0x80 + c.toNat / 64 % 64 ∧ 0x80 + c.toNat / 64 % 64 < 0xC0) ∧
            (0x80 ≤ 0x80 + c.toNat % 64 ∧ 0x80 + c.toNat % 64 < 0xC0) := by omega
        have hval : (0xE0 + c.toNat / 4096 - 0xE0) * 4096 +
            (0x80 + c.toNat / 64 % 64 - 0x80) * 64 + (0x80 + c.toNat % 64 - 0x80) =
            c.toNat := by omega
        have hok : 0x800 ≤ c.toNat ∧ ¬(0xD800 ≤ c.toNat ∧ c.toNat < 0xE000) := by omega
        simp only [List.append_eq, List.cons_append, List.nil_append, utf8LossyGo,
          if_neg hb, if_neg hb2, if_neg hb3, if_pos hb4, if_pos hc1, hval,
          if_pos hok, hofNat]
      · rw [show utf8EncodeChar c =
            [0xF0 + c.toNat / 262144, 0x80 + c.toNat / 4096 % 64,
             0x80 + c.toNat / 64 % 64, 0x80 + c.toNat % 64] from by
          rw [utf8EncodeChar, if_neg h1, if_neg h2, if_neg h3]]
        have hcv : c.toNat < 0x110000 := by omega
        have hb : ¬(0xF0 + c.toNat / 262144 < 0x80) := by omega
        have hb2 : ¬(0xF0 + c.toNat / 262144 < 0xC2) := by omega
        have hb3 : ¬(0xF0 + c.toNat / 262144 < 0xE0) := by omega
        have hb4 : ¬(0xF0 + c.toNat / 262144 < 0xF0) := by omega
        have hb5 : 0xF0 + c.toNat / 262144 < 0xF5 := by omega
        have hc1 : (0x80 ≤ 0x80 + c.toNat / 4096 % 64 ∧ 0x80 + c.toNat / 4096 % 64 < 0xC0) ∧
            (0x80 ≤ 0x80 + c.toNat / 64 % 64 ∧ 0x80 + c.toNat / 64 % 64 < 0xC0) ∧
            (0x80 ≤ 0x80 + c.toNat % 64 ∧ 0x80 + c.toNat % 64 < 0xC0) := by omega
        have hval : (0xF0 + c.toNat / 262144 - 0xF0) * 262144 +
            (0x80 + c.toNat / 4096 % 64 - 0x80) * 4096 +
            (0x80 + c.toNat / 64 % 64 - 0x80) * 64 + (0x80 + c.toNat % 64 - 0x80) =
            c.toNat := by omega
        have hok : 0x10000 ≤ c.toNat ∧ c.toNat < 0x110000 := by omega
        simp only [List.append_eq, List.cons_append, List.nil_append, utf8LossyGo,
          if_neg hb, if_neg hb2, if_neg hb3, if_neg hb4, if_pos hb5, if_pos hc1,
          hval, if_pos hok, hofNat]

theorem utf8LossyGo_encode (s : List Char) (rest : List Nat) (fuel : Nat)
    (h : s.length ≤ fuel) :
    utf8LossyGo fuel (utf8Encode s ++ rest) =
      s ++ utf8LossyGo (fuel - s.length) rest := by
  induction s generalizing fuel with
  | nil => simp [utf8Encode]
  | cons c s ih =>
    cases fuel with
    | zero => simp at h
    | succ f =>
      have henc : utf8Encode (c :: s) = utf8EncodeChar c ++ utf8Encode s := by
        simp [utf8Encode]
      rw [henc, List.append_assoc, utf8LossyGo_encodeChar, ih f (by simpa using h)]
      simp [Nat.succ_sub_one]

theorem utf8_roundtrip (s : List Char) : utf8Lossy (utf8Encode s) = s := by
  have h : s.length ≤ (utf8Encode s).length := by
    induction s with
    | nil => simp [utf8Encode]
    | cons c s ih =>
      have : 1 ≤ (utf8EncodeChar c).length := by
        rw [utf8EncodeChar]
        split_ifs <;> simp
      simp [utf8Encode] at ih ⊢
      omega
  unfold utf8Lossy
  have h2 := utf8LossyGo_encode s [] ((utf8Encode s).length) h
  rw [List.append_nil] at h2
  rw [h2, utf8LossyGo_nil, List.append_nil]

/-! ## Decimal integers (Rust `to_string` / `str::parse::<uN>`) -/

/-- Rust `uN::to_string()` followed by `as_bytes()`: the ASCII decimal digit
bytes of the number, most significant first. -/
def natToDecimalBytes (n : Nat) : List Nat := (Nat.toDigits 10 n).map Char.toNat

/-- Model of Rust `str::parse::<uN>()` (the `FromStr` instance of an unsigned
integer of maximum value `max`): an optional single leading `+`, then one or
more ASCII digits, value at most `max`.  The error strings are the
`ParseIntError` display messages. -/
def rustParseUInt (max : Nat) (s : List Char) : RResult Nat :=
  match s with
  | [] => .err "cannot parse integer from empty string"
  | c :: rest =>
    let digits := if c = '+' then rest else c :: rest
    if digits = [] then .err "invalid digit found in string"
    else if digits.all (fun d => d.isDigit) then
      if digits.foldl (fun a d => a * 10 + (d.toNat - 48)) 0 ≤ max then
        .ok (digits.foldl (fun a d => a * 10 + (d.toNat - 48)) 0)
      else .err "number too large to fit in target type"
    else .err "invalid digit found in string"

/-! ## Command catalog (`src/commands.rs`)

`COMMAND_TYPE_FETCH` / `COMMAND_TYPE_SET` and, per command kind, the id
constants and the `marshal_data` / `unmarshal_data` functions, translated
from the `Command` trait implementations. -/

def COMMAND_TYPE_FETCH : Nat := 1
def COMMAND_TYPE_SET : Nat := 2

/-- `Command::packet(CommandType::Fetch, None)` as produced by
`Command::fetch()`: command type 1, the kind's get id, no data. -/
def fetchPacket (get_command_id : Nat) : Packet :=
  { command_type := COMMAND_TYPE_FETCH, command := get_command_id,
    command_data := none }

namespace DeviceName

def GET_COMMAND_ID : Nat := 90

def SET_COMMAND_ID : Nat := 90

def GET_REPLY_COMMAND_ID : Nat := GET_COMMAND_ID

def NOTIFY_ID : Nat := 0

/-- `DeviceName::marshal_data`: `name.as_bytes().to_vec()`. -/
def marshal_data (name : List Char) : List Nat := utf8Encode name

/-- `DeviceName::unmarshal_data`: `String::from_utf8_lossy(data)`. -/
def unmarshal_data (data : List Nat) : RResult (List Char) :=
  .ok (utf8Lossy data)

end DeviceName

namespace Volume

def GET_COMMAND_ID : Nat := 64

def SET_COMMAND_ID : Nat := 64

def GET_REPLY_COMMAND_ID : Nat := GET_COMMAND_ID

def NOTIFY_ID : Nat := 64

/-- `Volume::marshal_data`: `panic!("volume cannot be greater than 100")`
when `volume > 100`, otherwise `volume.to_string().as_bytes().to_vec()`. -/
def marshal_data (volume : Nat) : PanicOr (List Nat) :=
  if volume > 100 then .panicked "volume cannot be greater than 100"
  else .ok (natToDecimalBytes volume)

/-- `Volume::unmarshal_data`:
`String::from_utf8_lossy(data).parse()` with every parse error mapped to
`"invalid volume data"`. -/
def unmarshal_data (data : List Nat) : RResult Nat :=
  match rustParseUInt 255 (utf8Lossy data) with
  | .ok v => .ok v
  | .err _ => .err "invalid volume data"

end Volume

/-- `commands::PlayControlCommand`. -/
inductive PlayControlCommand : Type
  | Play
  | Stop
  | Pause
  | Next
  | Previous
  | Toggle
  | Mute
  | Unmute
deriving DecidableEq, Repr

namespace PlayControl

def GET_COMMAND_ID : Nat := 51

def SET_COMMAND_ID : Nat := 40

def GET_REPLY_COMMAND_ID : Nat := GET_COMMAND_ID

def NOTIFY_ID : Nat := 51

/-- `PlayControl::marshal_data`: the ASCII verb token. -/
def marshal_data (cmd : PlayControlCommand) : List Nat :=
  (match cmd with
   | .Play => "PLAY"
   | .Stop => "STOP"
   | .Pause => "PAUSE"
   | .Next => "NEXT"
   | .Previous => "PREV"
   | .Toggle => "TOGGL"
   | .Mute => "MUTE"
   | .Unmute => "UNMUTE").toList.map Char.toNat

/-- `PlayControl::unmarshal_data`: the payload is the ASCII code of a digit,
the 0-based index of the verb. -/
def unmarshal_data (data : List Nat) : RResult PlayControlCommand :=
  match data with
  | [48] => .ok .Play
  | [49] => .ok .Stop
  | [50] => .ok .Pause
  | [51] => .ok .Next
  | [52] => .ok .Previous
  | [53] => .ok .Toggle
  | [54] => .ok .Mute
  | [55] => .ok .Unmute
  | [other] => .err ("invalid data: " ++ toString other)
  | _ => .err "invalid data length"

end PlayControl

/-- `commands::ChargingStateData`. -/
inductive ChargingStateData : Type
  | Discharging
  | PluggedInCharging
  | PluggedInCharged
  | PluggedInNotCharging
deriving DecidableEq, Repr

namespace ChargingState

def SET_COMMAND_ID : Nat := 0

def GET_COMMAND_ID : Nat := 1284

def GET_REPLY_COMMAND_ID : Nat := GET_COMMAND_ID

def NOTIFY_ID : Nat := 1284

/-- `ChargingState::marshal_data`: ignores its argument and returns
`vec![]` (the source comment says "for now"). -/
def marshal_data (_ : Unit) : List Nat := []

/-- `ChargingState::unmarshal_data`: single ASCII digit 0..3. -/
def unmarshal_data (data : List Nat) : RResult ChargingStateData :=
  match data with
  | [48] => .ok .Discharging
  | [49] => .ok .PluggedInCharging
  | [50] => .ok .PluggedInCharged
  | [51] => .ok .PluggedInNotCharging
  | [other] => .err ("invalid data: " ++ toString other)
  | _ => .err "invalid data length"

end ChargingState

namespace BatteryLevel

def SET_COMMAND_ID : Nat := 0

def GET_COMMAND_ID : Nat := 256

def GET_REPLY_COMMAND_ID : Nat := 257

def NOTIFY_ID : Nat := 258

/-- `BatteryLevel::marshal_data`: `vec![]` ("for now"). -/
def marshal_data (_ : Unit) : List Nat := []

/-- `BatteryLevel::unmarshal_data`:
`String::from_utf8_lossy(data).parse()`, errors prefixed with
`"error parsing battery level: "`. -/
def unmarshal_data (data : List Nat) : RResult Nat :=
  match rustParseUInt 255 (utf8Lossy data) with
  | .ok v => .ok v
  | .err m => .err ("error parsing battery level: " ++ m)

end BatteryLevel

/-! ## C1, C2: Volume encode and the decode/encode round-trips -/

theorem natToDecimalBytes_parse : ∀ v < 101,
    Volume.unmarshal_data (natToDecimalBytes v) = .ok v := by
  decide

/-- C1 (counterexample).  At volume 101, `Volume::marshal_data` panics (the
thread aborts) — it does not return an `OutOfRange` error value to the
caller. -/
theorem volume_encode_101_panics :
    Volume.marshal_data 101 = .panicked "volume cannot be greater than 100" := by
  rfl

theorem natToDecimalBytes_spec : ∀ v < 101,
    natToDecimalBytes v ≠ [] ∧
    (∀ b ∈ natToDecimalBytes v, 48 ≤ b ∧ b ≤ 57) ∧
    (natToDecimalBytes v).foldl (fun a b => a * 10 + (b - 48)) 0 = v := by
  decide

/-- C1 (amended).  For every v ≤ 100, `Volume::marshal_data` succeeds and
produces the ASCII decimal representation of v (non-empty digit bytes whose
decimal value is v); for every v > 100 it panics with "volume cannot be
greater than 100" — an abort, not an error surfaced to the caller. -/
theorem volume_encode_behaviour (v : Nat) :
    (v ≤ 100 →
      Volume.marshal_data v = .ok (natToDecimalBytes v) ∧
      natToDecimalBytes v ≠ [] ∧
      (∀ b ∈ natToDecimalBytes v, 48 ≤ b ∧ b ≤ 57) ∧
      (natToDecimalBytes v).foldl (fun a b => a * 10 + (b - 48)) 0 = v) ∧
    (100 < v →
      Volume.marshal_data v = .panicked "volume cannot be greater than 100") := by
  constructor
  · intro hv
    have hspec := natToDecimalBytes_spec v (by omega)
    exact ⟨by rw [Volume.marshal_data, if_neg (by omega)], hspec.1, hspec.2.1,
      hspec.2.2⟩
  · intro hv
    rw [Volume.marshal_data, if_pos (by omega)]

/-- C1 (witness): the theorem applied at 35 and at 101. -/
theorem volume_encode_behaviour_witness :
    Volume.marshal_data 35 = .ok [51, 53] ∧
    Volume.marshal_data 101 = .panicked "volume cannot be greater than 100" :=
  ⟨by
    have h := ((volume_encode_behaviour 35).1 (by norm_num)).1
    rw [h]
    rfl,
   (volume_encode_behaviour 101).2 (by norm_num)⟩

/-- C2 (counterexample).  The decode/encode round-trip fails for
PlayControl: `marshal_data` emits the ASCII verb token (here `"PLAY"`), but
`unmarshal_data` expects a single ASCII digit, so decoding the encoding of
`Play` returns the "invalid data length" error, not `Play`. -/
theorem playcontrol_roundtrip_fails :
    PlayControl.unmarshal_data (PlayControl.marshal_data .Play) =
      .err "invalid data length" ∧
    PlayControl.unmarshal_data (PlayControl.marshal_data .Play) ≠
      .ok .Play := by
  decide

/-- C2 (amended).  `decode (encode x) = x` holds for Volume on 0..=100 and
for DeviceName on every UTF-8 string; it fails for every PlayControl verb
(encode emits the ASCII verb token while decode expects one ASCII digit) and
for ChargingState (encode ignores its input and emits an empty payload,
which decode rejects). -/
theorem decode_encode_roundtrips :
    (∀ v, v ≤ 100 → ∀ bs, Volume.marshal_data v = .ok bs →
      Volume.unmarshal_data bs = .ok v) ∧
    (∀ s : List Char,
      DeviceName.unmarshal_data (DeviceName.marshal_data s) = .ok s) ∧
    (∀ cmd : PlayControlCommand,
      PlayControl.unmarshal_data (PlayControl.marshal_data cmd) =
        .err "invalid data length") ∧
    (ChargingState.unmarshal_data (ChargingState.marshal_data ()) =
      .err "invalid data length") := by
  refine ⟨?_, ?_, ?_, by decide⟩
  · intro v hv bs hb
    rw [Volume.marshal_data, if_neg (by omega)] at hb
    cases hb
    exact natToDecimalBytes_parse v (by omega)
  · intro s
    rw [DeviceName.unmarshal_data, DeviceName.marshal_data, utf8_roundtrip]
  · intro cmd
    cases cmd <;> decide

/-- C2 (witness): the round-trip theorem applied at volume 35 and at the
two-character string "aé". -/
theorem decode_encode_roundtrips_witness :
    Volume.unmarshal_data [51, 53] = .ok 35 ∧
    DeviceName.unmarshal_data (DeviceName.marshal_data ['a', 'é']) =
      .ok ['a', 'é'] :=
  ⟨decode_encode_roundtrips.1 35 (by norm_num) [51, 53] (by decide),
   decode_encode_roundtrips.2.1 ['a', 'é']⟩

/-! ## JSON (model of `serde_json`)

Executable recursive-descent JSON parser over decoded characters, with a
fuel argument (the input length plus one always suffices: every recursion
step consumes input).  Two documented simplifications against `serde_json`,
neither reachable from any claim: numbers with a fraction or exponent are
rejected rather than parsed as floats, and a `\u` escape decodes one code
unit without surrogate-pair combining. -/

inductive Json : Type
  | null
  | bool (b : Bool)
  | num (n : Int)
  | str (s : List Char)
  | arr (items : List Json)
  | obj (fields : List (List Char × Json))

def jsonSkipWs (l : List Char) : List Char :=
  l.dropWhile (fun c => c == ' ' || c == '\t' || c == '\n' || c == '\r')

def hexDigitVal (c : Char) : Option Nat :=
  if '0' ≤ c ∧ c ≤ '9' then some (c.toNat - 48)
  else if 'a' ≤ c ∧ c ≤ 'f' then some (c.toNat - 87)
  else if 'A' ≤ c ∧ c ≤ 'F' then some (c.toNat - 55)
  else none

def jsonParseStringBody : Nat → List Char → RResult (List Char × List Char)
  | 0, _ => .err "JSON: string not terminated"
  | _ + 1, [] => .err "JSON: string not terminated"
  | fuel + 1, c :: rest =>
    if c = '"' then .ok ([], rest)
    else if c = '\\' then
      match rest with
      | [] => .err "JSON: bad escape"
      | e :: rest2 =>
        if e = 'u' then
          match rest2 with
          | h1 :: h2 :: h3 :: h4 :: rest3 =>
            match hexDigitVal h1, hexDigitVal h2, hexDigitVal h3, hexDigitVal h4 with
            | some v1, some v2, some v3, some v4 =>
              match jsonParseStringBody fuel rest3 with
              | .ok (s, r) =>
                .ok (Char.ofNat (v1 * 4096 + v2 * 256 + v3 * 16 + v4) :: s, r)
              | .err m => .err m
            | _, _, _, _ => .err "JSON: bad escape"
          | _ => .err "JSON: bad escape"
        else
          match (if e = 'n' then some '\n' else if e = 't' then some '\t'
            else if e = 'r' then some '\r' else if e = 'b' then some (Char.ofNat 8)
            else if e = 'f' then some (Char.ofNat 12) else if e = '"' then some '"'
            else if e = '\\' then some '\\' else if e = '/' then some '/'
            else none) with
          | some ch =>
            match jsonParseStringBody fuel rest2 with
            | .ok (s, r) => .ok (ch :: s, r)
            | .err m => .err m
          | none => .err "JSON: bad escape"
    else
      match jsonParseStringBody fuel rest with
      | .ok (s, r) => .ok (c :: s, r)
      | .err m => .err m

def jsonParseNumber (l : List Char) : RResult (Int × List Char) :=
  let neg : Bool := match l with
    | '-' :: _ => true
    | _ => false
  let l1 := match l with
    | '-' :: r => r
    | _ => l
  let digits := l1.takeWhile (fun c => c.isDigit)
  let rest := l1.dropWhile (fun c => c.isDigit)
  if digits.isEmpty then .err "JSON: bad number"
  else
    match rest with
    | '.' :: _ => .err "JSON: unsupported non-integer number"
    | 'e' :: _ => .err "JSON: unsupported non-integer number"
    | 'E' :: _ => .err "JSON: unsupported non-integer number"
    | _ =>
      let v : Int := digits.foldl (fun a d => a * 10 + ((d.toNat : Int) - 48)) 0
      .ok (if neg then -v else v, rest)

mutual

def jsonParseValue : Nat → List Char → RResult (Json × List Char)
  | 0, _ => .err "JSON: out of fuel"
  | fuel + 1, l =>
    match jsonSkipWs l with
    | [] => .err "JSON: unexpected end of input"
    | c :: rest =>
      if c = 'n' then
        match c :: rest with
        | 'n' :: 'u' :: 'l' :: 'l' :: r => .ok (.null, r)
        | _ => .err "JSON: bad literal"
      else if c = 't' then
        match c :: rest with
        | 't' :: 'r' :: 'u' :: 'e' :: r => .ok (.bool true, r)
        | _ => .err "JSON: bad literal"
      else if c = 'f' then
        match c :: rest with
        | 'f' :: 'a' :: 'l' :: 's' :: 'e' :: r => .ok (.bool false, r)
        | _ => .err "JSON: bad literal"
      else if c = '"' then
        match jsonParseStringBody rest.length rest with
        | .ok (s, r) => .ok (.str s, r)
        | .err m => .err m
      else if c = '[' then
        match jsonSkipWs rest with
        | ']' :: r2 => .ok (.arr [], r2)
        | r1 =>
          match jsonParseArrayItems fuel r1 with
          | .ok (items, r) => .ok (.arr items, r)
          | .err m => .err m
      else if c = '\x7b' then
        match jsonSkipWs rest with
        | '\x7d' :: r2 => .ok (.obj [], r2)
        | r1 =>
          match jsonParseObjectItems fuel r1 with
          | .ok (fields, r) => .ok (.obj fields, r)
          | .err m => .err m
      else
        match jsonParseNumber (c :: rest) with
        | .ok (n, r) => .ok (.num n, r)
        | .err m => .err m

def jsonParseArrayItems : Nat → List Char → RResult (List Json × List Char)
  | 0, _ => .err "JSON: out of fuel"
  | fuel + 1, l =>
    match jsonParseValue fuel l with
    | .err m => .err m
    | .ok (v, r) =>
      match jsonSkipWs r with
      | ',' :: r2 =>
        match jsonParseArrayItems fuel r2 with
        | .ok (vs, r3) => .ok (v :: vs, r3)
        | .err m => .err m
      | ']' :: r2 => .ok ([v], r2)
      | _ => .err "JSON: expected comma or bracket"

def jsonParseObjectItems : Nat → List Char →
    RResult (List (List Char × Json) × List Char)
  | 0, _ => .err "JSON: out of fuel"
  | fuel + 1, l =>
    match jsonSkipWs l with
    | '"' :: r =>
      match jsonParseStringBody r.length r with
      | .err m => .err m
      | .ok (name, r1) =>
        match jsonSkipWs r1 with
        | ':' :: r3 =>
          match jsonParseValue fuel r3 with
          | .err m => .err m
          | .ok (v, r4) =>
            match jsonSkipWs r4 with
            | ',' :: r6 =>
              match jsonParseObjectItems fuel r6 with
              | .ok (fs, r7) => .ok ((name, v) :: fs, r7)
              | .err m => .err m
            | '\x7d' :: r6 => .ok ([(name, v)], r6)
            | _ => .err "JSON: expected comma or brace"
        | _ => .err "JSON: expected colon"
    | _ => .err "JSON: expected string key"

end

def jsonParse (l : List Char) : RResult Json :=
  match jsonParseValue (l.length + 1) l with
  | .err m => .err m
  | .ok (v, r) =>
    if jsonSkipWs r = [] then .ok v else .err "JSON: trailing characters"

/-- A byte string is valid UTF-8 exactly when re-encoding its lossy decoding
reproduces it (replacement characters make the two sides differ on every
invalid sequence). -/
def isValidUtf8 (bs : List Nat) : Bool := utf8Encode (utf8Lossy bs) == bs

/-- `serde_json::from_slice` up to the value level: UTF-8 decode plus JSON
parse. -/
def jsonFromSlice (bs : List Nat) : RResult Json :=
  if isValidUtf8 bs then jsonParse (utf8Lossy bs)
  else .err "JSON: invalid UTF-8"

def jsonField (fields : List (List Char × Json)) (name : String) : Option Json :=
  (fields.find? (fun kv => kv.1 == name.toList)).map (fun kv => kv.2)

def jsonOptString (fields : List (List Char × Json)) (name : String) :
    RResult (Option (List Char)) :=
  match jsonField fields name with
  | none => .ok none
  | some .null => .ok none
  | some (.str s) => .ok (some s)
  | some _ => .err "JSON: invalid type"

def jsonOptInt (fields : List (List Char × Json)) (name : String) :
    RResult (Option Int) :=
  match jsonField fields name with
  | none => .ok none
  | some .null => .ok none
  | some (.num n) => .ok (some n)
  | some _ => .err "JSON: invalid type"

def jsonOptBool (fields : List (List Char × Json)) (name : String) :
    RResult (Option Bool) :=
  match jsonField fields name with
  | none => .ok none
  | some .null => .ok none
  | some (.bool b) => .ok (some b)
  | some _ => .err "JSON: invalid type"

def jsonReqBool (fields : List (List Char × Json)) (name : String) :
    RResult Bool :=
  match jsonField fields name with
  | some (.bool b) => .ok b
  | some _ => .err "JSON: invalid type"
  | none => .err "JSON: missing field"

def jsonReqInt (fields : List (List Char × Json)) (name : String) :
    RResult Int :=
  match jsonField fields name with
  | some (.num n) => .ok n
  | some _ => .err "JSON: invalid type"
  | none => .err "JSON: missing field"

def jsonReqString (fields : List (List Char × Json)) (name : String) :
    RResult (List Char) :=
  match jsonField fields name with
  | some (.str s) => .ok s
  | some _ => .err "JSON: invalid type"
  | none => .err "JSON: missing field"

/-- `commands::PlayInfoData` (all fields; `is_from_channel` deserializes
from `isFromChannel`, the rest from their own names). -/
structure PlayInfoData where
  is_from_channel : Bool
  play_album : Option (List Char)
  play_album_uri : Option (List Char)
  play_artist : Option (List Char)
  play_attribution : Option (List Char)
  play_identity : Option (List Char)
  play_object : Option (List Char)
  play_pic : Option (List Char)
  play_preset_available : Option Int
  play_subtitle : Option (List Char)
  play_title : Option (List Char)
  play_type : Option (List Char)
  play_username : Option (List Char)
  play_token : Option (List Char)
deriving DecidableEq, Repr

def PlayInfoData.fromJson (j : Json) : RResult PlayInfoData :=
  match j with
  | .obj fields => do
    let is_from_channel ← jsonReqBool fields "isFromChannel"
    let play_album ← jsonOptString fields "play_album"
    let play_album_uri ← jsonOptString fields "play_album_uri"
    let play_artist ← jsonOptString fields "play_artist"
    let play_attribution ← jsonOptString fields "play_attribution"
    let play_identity ← jsonOptString fields "play_identity"
    let play_object ← jsonOptString fields "play_object"
    let play_pic ← jsonOptString fields "play_pic"
    let play_preset_available ← jsonOptInt fields "play_preset_available"
    let play_subtitle ← jsonOptString fields "play_subtitle"
    let play_title ← jsonOptString fields "play_title"
    let play_type ← jsonOptString fields "play_type"
    let play_username ← jsonOptString fields "play_username"
    let play_token ← jsonOptString fields "play_token"
    .ok { is_from_channel, play_album, play_album_uri, play_artist,
          play_attribution, play_identity, play_object, play_pic,
          play_preset_available, play_subtitle, play_title, play_type,
          play_username, play_token }
  | _ => .err "JSON: expected object"

namespace PlayInfo

def SET_COMMAND_ID : Nat := 277

def GET_COMMAND_ID : Nat := 278

def GET_REPLY_COMMAND_ID : Nat := GET_COMMAND_ID

def NOTIFY_ID : Nat := 278

/-- `PlayInfo::unmarshal_data`: `serde_json::from_slice(data)` with the
anyhow context `"error parsing JSON"`. -/
def unmarshal_data (data : List Nat) : RResult PlayInfoData :=
  match jsonFromSlice data with
  | .ok j =>
    match PlayInfoData.fromJson j with
    | .ok d => .ok d
    | .err _ => .err "error parsing JSON"
  | .err _ => .err "error parsing JSON"

end PlayInfo

/-- `commands::ChannelType` (serde `rename_all = "lowercase"`). -/
inductive ChannelType : Type
  | VTuner
  | XMLY
  | DoubanFM
  | Spotify
  | Kaishu
  | Deezer
  | Tidal
  | Napster
deriving DecidableEq, Repr

def ChannelType.fromString (s : List Char) : Option ChannelType :=
  if s = "vtuner".toList then some .VTuner
  else if s = "xmly".toList then some .XMLY
  else if s = "doubanfm".toList then some .DoubanFM
  else if s = "spotify".toList then some .Spotify
  else if s = "kaishu".toList then some .Kaishu
  else if s = "deezer".toList then some .Deezer
  else if s = "tidal".toList then some .Tidal
  else if s = "napster".toList then some .Napster
  else none

/-- `commands::ChannelObject` (`is_playing` deserializes from
`isPlaying`). -/
structure ChannelObject where
  is_playing : Option Bool
  channel_id : Int
  channel_type : ChannelType
  channel_name : List Char
  channel_identity : Option (List Char)
  station_url : Option (List Char)
  picture_url : Option (List Char)
  username : Option (List Char)
  password : Option (List Char)
  play_token : Option (List Char)
deriving DecidableEq, Repr

def ChannelObject.fromJson (j : Json) : RResult ChannelObject :=
  match j with
  | .obj fields => do
    let is_playing ← jsonOptBool fields "isPlaying"
    let channel_id ← jsonReqInt fields "channel_id"
    let ctStr ← jsonReqString fields "channel_type"
    match ChannelType.fromString ctStr with
    | none => .err "JSON: unknown channel_type"
    | some channel_type => do
      let channel_name ← jsonReqString fields "channel_name"
      let channel_identity ← jsonOptString fields "channel_identity"
      let station_url ← jsonOptString fields "station_url"
      let picture_url ← jsonOptString fields "picture_url"
      let username ← jsonOptString fields "username"
      let password ← jsonOptString fields "password"
      let play_token ← jsonOptString fields "play_token"
      .ok { is_playing, channel_id, channel_type, channel_name,
            channel_identity, station_url, picture_url, username, password,
            play_token }
  | _ => .err "JSON: expected object"

namespace PreChannel

def SET_COMMAND_ID : Nat := 276

def GET_COMMAND_ID : Nat := 275

def GET_REPLY_COMMAND_ID : Nat := GET_COMMAND_ID

def NOTIFY_ID : Nat := 0

/-- `PreChannel::unmarshal_data`: a JSON array of channel objects, context
`"error parsing JSON"`. -/
def unmarshal_data (data : List Nat) : RResult (List ChannelObject) :=
  match jsonFromSlice data with
  | .ok (.arr items) =>
    match items.mapM ChannelObject.fromJson with
    | .ok cs => .ok cs
    | .err _ => .err "error parsing JSON"
  | .ok _ => .err "error parsing JSON"
  | .err _ => .err "error parsing JSON"

end PreChannel

/-! ## Device manager (`src/device.rs`) -/

/-- `device::Device`.  `id` and `addr` are set at construction; the rest is
filled in from replies and notifications. -/
structure Device where
  id : List Char
  addr : IpAddr
  name : Option (List Char)
  volume : Option Nat
  play_status : Option PlayControlCommand
  play_info : Option PlayInfoData
  pre_channels : Option (List ChannelObject)
  charging_state : Option ChargingStateData
  battery_level : Option Nat
deriving DecidableEq, Repr

/-- `Device::new`. -/
def Device.new (id : List Char) (addr : IpAddr) : Device :=
  { id, addr, name := none, volume := none, play_status := none,
    play_info := none, pre_channels := none, charging_state := none,
    battery_level := none }

/-- `device::DeviceManagerEvent`. -/
inductive DeviceManagerEvent : Type
  | DeviceDiscovered (d : Device)
  | DeviceUpdated (d : Device)
deriving DecidableEq, Repr

/-- One event listener (an `mpsc::Sender<DeviceManagerEvent>`): `live` says
whether the receiving end still exists — `send` fails exactly when it does
not — and `inbox` is the sequence of events delivered so far. -/
structure Subscriber where
  live : Bool
  inbox : List DeviceManagerEvent
deriving DecidableEq, Repr

/-- `device::DeviceManagerData` (the send socket is left to the pure send
model below; the `HashMap<String, Device>` is an association list). -/
structure DeviceManagerData where
  event_listeners : List Subscriber
  devices : List (List Char × Device)
deriving DecidableEq, Repr

/-- The ascending indices at which the enumerate-and-send loop of
`send_event` records a failure (a send to a dead subscriber). -/
def failedIndicesFrom (i : Nat) : List Subscriber → List Nat
  | [] => []
  | s :: rest =>
    if s.live then failedIndicesFrom (i + 1) rest
    else i :: failedIndicesFrom (i + 1) rest

/-- `DeviceManagerData::send_event`: deliver a clone of the event to every
listener in order (collecting the indices whose send failed), then remove
the failed indices in reverse (descending) order via `Vec::remove`. -/
def send_event (listeners : List Subscriber) (event : DeviceManagerEvent) :
    List Subscriber :=
  let delivered := listeners.map (fun tx =>
    if tx.live then { tx with inbox := tx.inbox ++ [event] } else tx)
  (failedIndicesFrom 0 listeners).reverse.foldl
    (fun ls idx => ls.eraseIdx idx) delivered

/-- `DeviceManagerData::send_packet`: look the device up by id, send to its
address at port 7777 (`CMD_SEND_PORT`).  The pure model returns the
(destination, packet) pair handed to the socket; the id-lookup failure is
the `anyhow!("unknown device ID")` error. -/
def DeviceManagerData.send_packet (self : DeviceManagerData)
    (device_id : List Char) (packet : Packet) :
    RResult (SocketAddr × Packet) :=
  match self.devices.find? (fun kv => kv.1 == device_id) with
  | some kv => .ok (⟨kv.2.addr, CMD_SEND_PORT⟩, packet)
  | none => .err "unknown device ID"

/-- `DeviceManager::fetch_info`: seven sequential fetch sends (each `?`
stops at the first failure); the result lists the sent (destination,
packet) pairs in source order. -/
def DeviceManager.fetch_info (self : DeviceManagerData) (device_id : List Char) :
    RResult (List (SocketAddr × Packet)) :=
  match self.send_packet device_id (fetchPacket DeviceName.GET_COMMAND_ID) with
  | .err e => .err e
  | .ok p1 =>
    match self.send_packet device_id (fetchPacket Volume.GET_COMMAND_ID) with
    | .err e => .err e
    | .ok p2 =>
      match self.send_packet device_id (fetchPacket PlayControl.GET_COMMAND_ID) with
      | .err e => .err e
      | .ok p3 =>
        match self.send_packet device_id (fetchPacket PlayInfo.GET_COMMAND_ID) with
        | .err e => .err e
        | .ok p4 =>
          match self.send_packet device_id
              (fetchPacket ChargingState.GET_COMMAND_ID) with
          | .err e => .err e
          | .ok p5 =>
            match self.send_packet device_id
                (fetchPacket BatteryLevel.GET_COMMAND_ID) with
            | .err e => .err e
            | .ok p6 =>
              match self.send_packet device_id
                  (fetchPacket PreChannel.GET_COMMAND_ID) with
              | .err e => .err e
              | .ok p7 => .ok [p1, p2, p3, p4, p5, p6, p7]

/-- `DeviceManager::set_volume`: clamp to `[0, 100]`, marshal (a potential
panic site, unreachable after clamping), send a Volume set packet. -/
def DeviceManager.set_volume (self : DeviceManagerData) (device_id : List Char)
    (volume : Nat) : PanicOr (RResult (SocketAddr × Packet)) :=
  match Volume.marshal_data (min volume 100) with
  | .panicked m => .panicked m
  | .ok bs => .ok (self.send_packet device_id
      { command_type := COMMAND_TYPE_SET, command := Volume.SET_COMMAND_ID,
        command_data := some bs })

/-- `DeviceManagerData::handle_device_update`: dispatch on `packet.command`
(the match arms in source order; ids are pairwise distinct).  On decode
success the matching field is set and the updated device's snapshot is
returned inside a `DeviceUpdated` event; a decode failure propagates through
`?` before any assignment happens. -/
def handle_device_update (device : Device) (packet : Packet) :
    RResult (Device × Option DeviceManagerEvent) :=
  if packet.command = DeviceName.GET_REPLY_COMMAND_ID then
    match DeviceName.unmarshal_data (packet.command_data.getD []) with
    | .err e => .err e
    | .ok v =>
      let device := { device with name := some v }
      .ok (device, some (.DeviceUpdated device))
  else if packet.command = Volume.GET_REPLY_COMMAND_ID then
    match Volume.unmarshal_data (packet.command_data.getD []) with
    | .err e => .err e
    | .ok v =>
      let device := { device with volume := some v }
      .ok (device, some (.DeviceUpdated device))
  else if packet.command = PlayControl.GET_REPLY_COMMAND_ID then
    match PlayControl.unmarshal_data (packet.command_data.getD []) with
    | .err e => .err e
    | .ok v =>
      let device := { device with play_status := some v }
      .ok (device, some (.DeviceUpdated device))
  else if packet.command = PlayInfo.GET_REPLY_COMMAND_ID then
    match PlayInfo.unmarshal_data (packet.command_data.getD []) with
    | .err e => .err e
    | .ok v =>
      let device := { device with play_info := some v }
      .ok (device, some (.DeviceUpdated device))
  else if packet.command = ChargingState.GET_REPLY_COMMAND_ID then
    match ChargingState.unmarshal_data (packet.command_data.getD []) with
    | .err e => .err e
    | .ok v =>
      let device := { device with charging_state := some v }
      .ok (device, some (.DeviceUpdated device))
  else if packet.command = BatteryLevel.GET_REPLY_COMMAND_ID ∨
      packet.command = BatteryLevel.NOTIFY_ID then
    match BatteryLevel.unmarshal_data (packet.command_data.getD []) with
    | .err e => .err e
    | .ok v =>
      let device := { device with battery_level := some v }
      .ok (device, some (.DeviceUpdated device))
  else if packet.command = PreChannel.GET_COMMAND_ID then
    match PreChannel.unmarshal_data (packet.command_data.getD []) with
    | .err e => .err e
    | .ok v =>
      let device := { device with pre_channels := some v }
      .ok (device, some (.DeviceUpdated device))
  else .ok (device, none)

/-- The write-back of the in-place mutation performed through the
`values_mut()` reference. -/
def updateDevice (devices : List (List Char × Device)) (id : List Char)
    (dev : Device) : List (List Char × Device) :=
  devices.map (fun kv => if kv.1 == id then (kv.1, dev) else kv)

/-- `DeviceManagerData::handle_incoming_packet`: find the device whose
address equals the sender's IP, run `handle_device_update` through the
mutable reference (its error propagates via `?`), and if an event was
produced publish it with `send_event`.  No matching device is a silent
no-op. -/
def DeviceManagerData.handle_incoming_packet (self : DeviceManagerData)
    (addr : SocketAddr) (packet : Packet) :
    RResult (DeviceManagerData × Option DeviceManagerEvent) :=
  match self.devices.find? (fun kv => kv.2.addr == addr.ip) with
  | none => .ok (self, none)
  | some kv =>
    match handle_device_update kv.2 packet with
    | .err e => .err e
    | .ok (dev, none) =>
      .ok ({ self with devices := updateDevice self.devices kv.1 dev }, none)
    | .ok (dev, some ev) =>
      let devices' := updateDevice self.devices kv.1 dev
      let listeners' := send_event self.event_listeners ev
      .ok ({ self with devices := devices', event_listeners := listeners' },
        some ev)

/-- The receiver loop's view (`packet_receiver_thread` logs handler errors
and continues): on a handler error the manager state is untouched and no
event is published. -/
def DeviceManagerData.processIncoming (self : DeviceManagerData)
    (addr : SocketAddr) (packet : Packet) :
    DeviceManagerData × Option DeviceManagerEvent :=
  match self.handle_incoming_packet addr packet with
  | .ok r => r
  | .err _ => (self, none)

/-- An externally observable action of the manager, in order. -/
inductive Action : Type
  | sentPacket (dest : SocketAddr) (p : Packet)
  | publishedEvent (e : DeviceManagerEvent)
deriving DecidableEq, Repr

/-- `DeviceManagerData::handle_notification` as an ordered action trace: the
ack `{command_type echoed, command = 2, no data}` goes to the sender's IP at
port 3334 (`NOTIF_ACK_PORT`) first — had the ack send failed, the `?` would
return before routing — and only then is the packet routed through
`handle_incoming_packet`, whose state mutation and event publication
follow. -/
def DeviceManagerData.handle_notification (self : DeviceManagerData)
    (addr : SocketAddr) (packet : Packet) :
    List Action × RResult DeviceManagerData :=
  let ack : Action := .sentPacket ⟨addr.ip, NOTIF_ACK_PORT⟩
    { command_type := packet.command_type, command := 2, command_data := none }
  match self.handle_incoming_packet addr packet with
  | .ok (self', ev) =>
    (ack :: ev.toList.map Action.publishedEvent, .ok self')
  | .err e => ([ack], .err e)

/-! ## C8: event fan-out with lapsed-subscriber pruning -/

theorem failedIndicesFrom_succ (l : List Subscriber) (i : Nat) :
    failedIndicesFrom (i + 1) l = (failedIndicesFrom i l).map (· + 1) := by
  induction l generalizing i with
  | nil => rfl
  | cons s rest ih =>
    by_cases hl : s.live
    · simp [failedIndicesFrom, hl, ih (i + 1)]
    · simp [failedIndicesFrom, hl, ih (i + 1)]

theorem foldl_eraseIdx_map_succ {α : Type} (idxs : List Nat) (a : α) (l : List α) :
    (idxs.map (· + 1)).foldl (fun ls idx => ls.eraseIdx idx) (a :: l) =
      a :: idxs.foldl (fun ls idx => ls.eraseIdx idx) l := by
  induction idxs generalizing l with
  | nil => rfl
  | cons j js ih =>
    simp only [List.map_cons, List.foldl_cons, List.eraseIdx_cons_succ]
    exact ih _

theorem send_event_eq_filter (listeners : List Subscriber)
    (e : DeviceManagerEvent) :
    send_event listeners e =
      (listeners.filter (fun s => s.live)).map
        (fun s => { s with inbox := s.inbox ++ [e] }) := by
  induction listeners with
  | nil => rfl
  | cons s rest ih =>
    have hrest : (failedIndicesFrom 0 rest).reverse.foldl
        (fun ls idx => ls.eraseIdx idx)
        (rest.map (fun tx =>
          if tx.live then { tx with inbox := tx.inbox ++ [e] } else tx)) =
        send_event rest e := rfl
    by_cases hl : s.live
    · show (failedIndicesFrom 0 (s :: rest)).reverse.foldl
        (fun ls idx => ls.eraseIdx idx)
        ((s :: rest).map (fun tx =>
          if tx.live then { tx with inbox := tx.inbox ++ [e] } else tx)) = _
      rw [show failedIndicesFrom 0 (s :: rest) = failedIndicesFrom (0 + 1) rest
          from by simp [failedIndicesFrom, hl]]
      rw [failedIndicesFrom_succ, List.map_cons, if_pos hl, ← List.map_reverse,
        foldl_eraseIdx_map_succ, hrest, ih, List.filter_cons, if_pos (by simp [hl])]
      simp
    · show (failedIndicesFrom 0 (s :: rest)).reverse.foldl
        (fun ls idx => ls.eraseIdx idx)
        ((s :: rest).map (fun tx =>
          if tx.live then { tx with inbox := tx.inbox ++ [e] } else tx)) = _
      rw [show failedIndicesFrom 0 (s :: rest) =
          0 :: failedIndicesFrom (0 + 1) rest from by simp [failedIndicesFrom, hl]]
      rw [failedIndicesFrom_succ, List.map_cons, if_neg hl, List.reverse_cons,
        List.foldl_append, ← List.map_reverse, foldl_eraseIdx_map_succ, hrest, ih,
        List.filter_cons, if_neg (by simp [hl])]
      simp

/-- C8 (confirmed).  Publication delivers one clone of the event to exactly
the live subscribers (in order), every subscriber whose send failed is
removed before `send_event` returns, and consequently every subscriber that
survives a publication is live. -/
theorem send_event_spec (listeners : List Subscriber) (e : DeviceManagerEvent) :
    send_event listeners e =
      (listeners.filter (fun s => s.live)).map
        (fun s => { s with inbox := s.inbox ++ [e] }) ∧
    (∀ s, s ∈ send_event listeners e → s.live = true) := by
  refine ⟨send_event_eq_filter listeners e, ?_⟩
  intro s hs
  rw [send_event_eq_filter] at hs
  rcases List.mem_map.mp hs with ⟨t, ht, rfl⟩
  have h2 := List.mem_filter.mp ht
  simpa using h2.2

/-- C8 (witness): the theorem applied to one live and one lapsed
subscriber. -/
theorem send_event_spec_witness :
    send_event [⟨true, []⟩, ⟨false, []⟩]
        (.DeviceDiscovered (Device.new [] (IpAddr.v4 1 2 3 4))) =
      [⟨true, [.DeviceDiscovered (Device.new [] (IpAddr.v4 1 2 3 4))]⟩] ∧
    (⟨true, [DeviceManagerEvent.DeviceDiscovered (Device.new [] (IpAddr.v4 1 2 3 4))]⟩ :
      Subscriber).live = true :=
  ⟨by
    rw [(send_event_spec [⟨true, []⟩, ⟨false, []⟩]
        (.DeviceDiscovered (Device.new [] (IpAddr.v4 1 2 3 4)))).1]
    rfl,
   (send_event_spec [⟨true, []⟩, ⟨false, []⟩]
       (.DeviceDiscovered (Device.new [] (IpAddr.v4 1 2 3 4)))).2 _ (by decide)⟩

/-! ## C5: fetch_info and the unknown-device error -/

/-- C5 (confirmed).  For an id present in the device table, `fetch_info`
succeeds and sends exactly seven fetch packets (command type 1, no data) to
the device's address at port 7777, in the order DeviceName (90), Volume
(64), PlayControl (51), PlayInfo (278), ChargingState (1284), BatteryLevel
(256), PreChannel (275).  For an id not in the table, `fetch_info`,
`set_volume` and `send_packet` all fail with the "unknown device ID" error,
and the failing `fetch_info` sends nothing (its first send already fails,
and each later send runs only after the previous `?` succeeded). -/
theorem fetch_info_spec (d : DeviceManagerData) (id : List Char) :
    (∀ kv, d.devices.find? (fun kv => kv.1 == id) = some kv →
      DeviceManager.fetch_info d id = .ok
        [(⟨kv.2.addr, CMD_SEND_PORT⟩,
            { command_type := 1, command := 90, command_data := none }),
         (⟨kv.2.addr, CMD_SEND_PORT⟩,
            { command_type := 1, command := 64, command_data := none }),
         (⟨kv.2.addr, CMD_SEND_PORT⟩,
            { command_type := 1, command := 51, command_data := none }),
         (⟨kv.2.addr, CMD_SEND_PORT⟩,
            { command_type := 1, command := 278, command_data := none }),
         (⟨kv.2.addr, CMD_SEND_PORT⟩,
            { command_type := 1, command := 1284, command_data := none }),
         (⟨kv.2.addr, CMD_SEND_PORT⟩,
            { command_type := 1, command := 256, command_data := none }),
         (⟨kv.2.addr, CMD_SEND_PORT⟩,
            { command_type := 1, command := 275, command_data := none })]) ∧
    (d.devices.find? (fun kv => kv.1 == id) = none →
      DeviceManager.fetch_info d id = .err "unknown device ID" ∧
      (∀ v, DeviceManager.set_volume d id v = .ok (.err "unknown device ID")) ∧
      (∀ p, d.send_packet id p = .err "unknown device ID")) := by
  constructor
  · intro kv hfind
    have hsp : ∀ p, d.send_packet id p = .ok (⟨kv.2.addr, CMD_SEND_PORT⟩, p) := by
      intro p
      rw [DeviceManagerData.send_packet, hfind]
    simp [DeviceManager.fetch_info, hsp, fetchPacket, COMMAND_TYPE_FETCH,
      DeviceName.GET_COMMAND_ID, Volume.GET_COMMAND_ID,
      PlayControl.GET_COMMAND_ID, PlayInfo.GET_COMMAND_ID,
      ChargingState.GET_COMMAND_ID, BatteryLevel.GET_COMMAND_ID,
      PreChannel.GET_COMMAND_ID]
  · intro hfind
    have hsp : ∀ p, d.send_packet id p = .err "unknown device ID" := by
      intro p
      rw [DeviceManagerData.send_packet, hfind]
    refine ⟨?_, ?_, hsp⟩
    · simp [DeviceManager.fetch_info, hsp]
    · intro v
      have hm : Volume.marshal_data (min v 100) =
          .ok (natToDecimalBytes (min v 100)) := by
        rw [Volume.marshal_data, if_neg (by omega)]
      rw [DeviceManager.set_volume, hm]
      simp [hsp]

/-- The one-device table used by the witnesses: `test-device` at
192.168.10.10. -/
def demoDevice : Device :=
  Device.new "test-device".toList (IpAddr.v4 192 168 10 10)

def demoData : DeviceManagerData :=
  { event_listeners := [], devices := [("test-device".toList, demoDevice)] }

/-- C5 (witness): the theorem applied to the one-device table and to an
unknown id. -/
theorem fetch_info_spec_witness :
    DeviceManager.fetch_info demoData "test-device".toList = .ok
      [(⟨IpAddr.v4 192 168 10 10, CMD_SEND_PORT⟩,
          { command_type := 1, command := 90, command_data := none }),
       (⟨IpAddr.v4 192 168 10 10, CMD_SEND_PORT⟩,
          { command_type := 1, command := 64, command_data := none }),
       (⟨IpAddr.v4 192 168 10 10, CMD_SEND_PORT⟩,
          { command_type := 1, command := 51, command_data := none }),
       (⟨IpAddr.v4 192 168 10 10, CMD_SEND_PORT⟩,
          { command_type := 1, command := 278, command_data := none }),
       (⟨IpAddr.v4 192 168 10 10, CMD_SEND_PORT⟩,
          { command_type := 1, command := 1284, command_data := none }),
       (⟨IpAddr.v4 192 168 10 10, CMD_SEND_PORT⟩,
          { command_type := 1, command := 256, command_data := none }),
       (⟨IpAddr.v4 192 168 10 10, CMD_SEND_PORT⟩,
          { command_type := 1, command := 275, command_data := none })] ∧
    DeviceManager.fetch_info demoData "nope".toList = .err "unknown device ID" :=
  ⟨by
    rw [(fetch_info_spec demoData "test-device".toList).1
      ("test-device".toList, demoDevice) (by decide)]
    rfl,
   ((fetch_info_spec demoData "nope".toList).2 (by decide)).1⟩

/-! ## C6: decode errors mutate nothing and publish nothing -/

/-- C6 (confirmed).  When the sender's IP matches a device but the packet's
payload fails to decode (`handle_device_update` returns an error), the
manager state — device table and subscriber list — is exactly what it was
and no event is published; conversely, an event is published only when
`handle_device_update` decoded successfully and produced it. -/
theorem decode_error_no_mutation (d : DeviceManagerData) (addr : SocketAddr)
    (p : Packet) :
    (∀ kv, d.devices.find? (fun kv => kv.2.addr == addr.ip) = some kv →
      ∀ e, handle_device_update kv.2 p = .err e →
        d.processIncoming addr p = (d, none)) ∧
    (∀ d' ev, d.processIncoming addr p = (d', some ev) →
      ∃ kv dev', d.devices.find? (fun kv => kv.2.addr == addr.ip) = some kv ∧
        handle_device_update kv.2 p = .ok (dev', some ev)) := by
  constructor
  · intro kv hfind e herr
    rw [DeviceManagerData.processIncoming,
      DeviceManagerData.handle_incoming_packet, hfind]
    simp only [herr]
  · intro d' ev hpi
    rw [DeviceManagerData.processIncoming] at hpi
    cases hh : d.handle_incoming_packet addr p with
    | err m =>
      rw [hh] at hpi
      simp at hpi
    | ok r =>
      rw [hh] at hpi
      have hr : r = (d', some ev) := by simpa using hpi
      subst hr
      rw [DeviceManagerData.handle_incoming_packet] at hh
      cases hfind : d.devices.find? (fun kv => kv.2.addr == addr.ip) with
      | none =>
        rw [hfind] at hh
        simp at hh
      | some kv =>
        rw [hfind] at hh
        cases hdu : handle_device_update kv.2 p with
        | err e =>
          simp [hdu] at hh
        | ok pr =>
          obtain ⟨dev, evo⟩ := pr
          cases evo with
          | none =>
            simp [hdu] at hh
          | some ev2 =>
            simp [hdu] at hh
            exact ⟨kv, dev, rfl, by rw [hdu, hh.2]⟩

/-- C6 (witness): a Volume reply carrying the non-numeric payload "abc"
leaves the one-device table untouched and publishes nothing. -/
theorem decode_error_no_mutation_witness :
    demoData.processIncoming ⟨IpAddr.v4 192 168 10 10, CMD_RESP_PORT⟩
      { command_type := 2, command := 64, command_data := some [97, 98, 99] } =
      (demoData, none) :=
  (decode_error_no_mutation demoData ⟨IpAddr.v4 192 168 10 10, CMD_RESP_PORT⟩
      { command_type := 2, command := 64, command_data := some [97, 98, 99] }).1
    ("test-device".toList, demoDevice) (by decide)
    "invalid volume data" (by decide)

/-! ## C9: the notification ack precedes mutation and publication -/

/-- C9 (confirmed).  For every packet handled by the notification loop (port
3333), the first action of `handle_notification` is sending the ack
`{command_type echoed, command = 2, no data}` to the sender's IP at port
3334; every remaining action in the trace is an event publication, and the
state returned is computed only after the ack is in the trace. -/
theorem notification_ack_first (d : DeviceManagerData) (addr : SocketAddr)
    (p : Packet) :
    ∃ rest, (d.handle_notification addr p).1 =
      Action.sentPacket ⟨addr.ip, NOTIF_ACK_PORT⟩
        { command_type := p.command_type, command := 2, command_data := none }
        :: rest ∧
      ∀ a ∈ rest, ∃ e, a = Action.publishedEvent e := by
  cases hh : d.handle_incoming_packet addr p with
  | ok r =>
    obtain ⟨d', ev⟩ := r
    refine ⟨ev.toList.map Action.publishedEvent, ?_, ?_⟩
    · rw [DeviceManagerData.handle_notification, hh]
    · intro a ha
      rcases List.mem_map.mp ha with ⟨e, _, rfl⟩
      exact ⟨e, rfl⟩
  | err m =>
    refine ⟨[], ?_, by simp⟩
    rw [DeviceManagerData.handle_notification, hh]

/-- C9 (witness): the ack-first theorem at a concrete Volume notification to
the one-device table. -/
theorem notification_ack_first_witness :
    ∃ rest, (demoData.handle_notification ⟨IpAddr.v4 192 168 10 10, NOTIF_RECV_PORT⟩
      { command_type := 2, command := 64, command_data := some [51, 53] }).1 =
      Action.sentPacket ⟨IpAddr.v4 192 168 10 10, NOTIF_ACK_PORT⟩
        { command_type := 2, command := 2, command_data := none } :: rest ∧
      ∀ a ∈ rest, ∃ e, a = Action.publishedEvent e :=
  notification_ack_first demoData ⟨IpAddr.v4 192 168 10 10, NOTIF_RECV_PORT⟩
    { command_type := 2, command := 64, command_data := some [51, 53] }

/-! ## Discovery parser (`src/discovery_reply.rs`)

The datagram is handed to the third-party `httparse` crate, which is not
part of this repository.  `httpRequestParse` below is therefore modelled
from the spec: a request line `METHOD SP PATH SP HTTP-VERSION CRLF`, then
`Name: value` header lines (spaces after the colon skipped), terminated by
an empty line or by the end of the datagram — the final header of the
sample datagram is not CRLF-terminated and must still be accepted, which
the spec's scenario 2 requires.  The claims' datagrams are ASCII, so
parsing is modelled on the decoded characters. -/

structure HttpRequest where
  method : List Char
  path : List Char
  headers : List (List Char × List Char)
deriving DecidableEq, Repr

def httpParseRequestLine (l : List Char) :
    RResult ((List Char × List Char) × List Char) :=
  let method := l.takeWhile (fun c => c != ' ')
  match l.dropWhile (fun c => c != ' ') with
  | ' ' :: r1 =>
    let path := r1.takeWhile (fun c => c != ' ')
    match r1.dropWhile (fun c => c != ' ') with
    | ' ' :: r2 =>
      let version := r2.takeWhile (fun c => c != '\r')
      if method ≠ [] ∧ path ≠ [] ∧
          (version = "HTTP/1.1".toList ∨ version = "HTTP/1.0".toList) then
        match r2.dropWhile (fun c => c != '\r') with
        | '\r' :: '\n' :: rest => .ok ((method, path), rest)
        | _ => .err "error parsing HTTP data"
      else .err "error parsing HTTP data"
    | _ => .err "error parsing HTTP data"
  | _ => .err "error parsing HTTP data"

def httpParseHeaders : Nat → List Char → RResult (List (List Char × List Char))
  | _, [] => .ok []
  | _, '\r' :: '\n' :: _ => .ok []
  | 0, _ => .err "error parsing HTTP data"
  | fuel + 1, l =>
    let name := l.takeWhile (fun c => c != ':' && c != '\r' && c != '\n')
    match l.dropWhile (fun c => c != ':' && c != '\r' && c != '\n') with
    | ':' :: r =>
      if name = [] then .err "error parsing HTTP data"
      else
        let r1 := r.dropWhile (fun c => c == ' ')
        let value := r1.takeWhile (fun c => c != '\r')
        match r1.dropWhile (fun c => c != '\r') with
        | '\r' :: '\n' :: rest =>
          match httpParseHeaders fuel rest with
          | .ok hs => .ok ((name, value) :: hs)
          | .err m => .err m
        | [] => .ok [(name, value)]
        | _ => .err "error parsing HTTP data"
    | _ => .err "error parsing HTTP data"

def httpRequestParse (l : List Char) : RResult HttpRequest :=
  match httpParseRequestLine l with
  | .err m => .err m
  | .ok ((method, path), rest) =>
    match httpParseHeaders (rest.length + 1) rest with
    | .err m => .err m
    | .ok headers => .ok { method, path, headers }

def parseIpv4Octet (s : List Char) : Option Nat :=
  if s.isEmpty then none
  else if ¬ (s.all (fun c => c.isDigit)) then none
  else if 1 < s.length ∧ s.head? = some '0' then none
  else
    let v := s.foldl (fun a c => a * 10 + (c.toNat - 48)) 0
    if v ≤ 255 then some v else none

/-- `str::parse::<IpAddr>()`, modelled for IPv4 literals (four strict
decimal octets, no leading zeros); the claims only exercise IPv4
addresses. -/
def parseIpAddr (s : List Char) : Option IpAddr :=
  match s.splitOn '.' with
  | [a, b, c, d] =>
    match parseIpv4Octet a, parseIpv4Octet b, parseIpv4Octet c,
        parseIpv4Octet d with
    | some x, some y, some z, some w => some (.v4 x y z w)
    | _, _, _, _ => none
  | _ => none

/-- `discovery_reply::DiscoveryReply`. -/
structure DiscoveryReply where
  device_name : List Char
  device_id : List Char
  device_state : List Char
  port : Nat
  zone_id : List Char
  creator : List Char
  ip_address : IpAddr
  color_code : List Char
  firmware_version : List Char
  stereo_pair_id : List Char
deriving DecidableEq, Repr

/-- `BROKEN_NOTIFY_PREFIX`. -/
def brokenNotifyStart : List Char := "NOTIFY * HTTP/1.1 \r\n".toList

/-- `FIXED_NOTIFY_PREFIX`. -/
def fixedNotifyStart : List Char := "NOTIFY * HTTP/1.1\r\n".toList

/-- The Cow block at the top of `DiscoveryReply::parse`: when the datagram
starts with the broken `"NOTIFY * HTTP/1.1 \r\n"` (extra space), replace
that prefix by the fixed one. -/
def fixBrokenStartLine (input : List Char) : List Char :=
  if brokenNotifyStart.isPrefixOf input then
    fixedNotifyStart ++ input.drop brokenNotifyStart.length
  else input

/-- The ten mutable `Option` locals of `DiscoveryReply::parse`. -/
structure DiscAcc where
  device_name : Option (List Char) := none
  device_id : Option (List Char) := none
  device_state : Option (List Char) := none
  port : Option Nat := none
  zone_id : Option (List Char) := none
  creator : Option (List Char) := none
  ip_address : Option IpAddr := none
  color_code : Option (List Char) := none
  firmware_version : Option (List Char) := none
  stereo_pair_id : Option (List Char) := none
deriving DecidableEq, Repr

/-- One iteration of the header loop: a case-sensitive match on the header
name; `PORT` and `IPAddr` parse eagerly and propagate their context errors;
unknown headers are skipped. -/
def discStep (acc : DiscAcc) (h : List Char × List Char) : RResult DiscAcc :=
  if h.1 = "DeviceName".toList then .ok { acc with device_name := some h.2 }
  else if h.1 = "DeviceID".toList then .ok { acc with device_id := some h.2 }
  else if h.1 = "DeviceState".toList then
    .ok { acc with device_state := some h.2 }
  else if h.1 = "PORT".toList then
    match rustParseUInt 65535 h.2 with
    | .ok v => .ok { acc with port := some v }
    | .err _ => .err "invalid port number"
  else if h.1 = "ZoneID".toList then .ok { acc with zone_id := some h.2 }
  else if h.1 = "Creator".toList then .ok { acc with creator := some h.2 }
  else if h.1 = "IPAddr".toList then
    match parseIpAddr h.2 with
    | some ip => .ok { acc with ip_address := some ip }
    | none => .err "invalid IP address"
  else if h.1 = "ColorCode".toList then .ok { acc with color_code := some h.2 }
  else if h.1 = "FWVersion".toList then
    .ok { acc with firmware_version := some h.2 }
  else if h.1 = "StereoPairID".toList then
    .ok { acc with stereo_pair_id := some h.2 }
  else .ok acc

def okOr {α : Type} (o : Option α) (msg : String) : RResult α :=
  match o with
  | some v => .ok v
  | none => .err msg

/-- The body of `DiscoveryReply::parse` after the start-line fix: run the
HTTP parser, require method `NOTIFY` and path `*`, fold the headers, then
assemble the reply with a missing-header error for each absent field (in
source order). -/
def DiscoveryReply.parseFixed (input : List Char) : RResult DiscoveryReply :=
  match httpRequestParse input with
  | .err m => .err m
  | .ok req =>
    if req.method ≠ "NOTIFY".toList then
      .err ("unexpected method: " ++ String.mk req.method)
    else if req.path ≠ "*".toList then
      .err ("unexpected path: " ++ String.mk req.path)
    else
      match req.headers.foldlM discStep {} with
      | .err m => .err m
      | .ok acc => do
        let device_name ← okOr acc.device_name "missing DeviceName header"
        let device_id ← okOr acc.device_id "missing DeviceID header"
        let device_state ← okOr acc.device_state "missing DeviceState header"
        let port ← okOr acc.port "missing PORT header"
        let zone_id ← okOr acc.zone_id "missing ZoneID header"
        let creator ← okOr acc.creator "missing Creator header"
        let ip_address ← okOr acc.ip_address "missing IPAddr header"
        let color_code ← okOr acc.color_code "missing ColorCode header"
        let firmware_version ← okOr acc.firmware_version
          "missing FWVersion header"
        let stereo_pair_id ← okOr acc.stereo_pair_id
          "missing StereoPairID header"
        .ok { device_name, device_id, device_state, port, zone_id, creator,
              ip_address, color_code, firmware_version, stereo_pair_id }

/-- `DiscoveryReply::parse`: the start-line fix followed by the body. -/
def DiscoveryReply.parse (input : List Char) : RResult DiscoveryReply :=
  DiscoveryReply.parseFixed (fixBrokenStartLine input)

/-- The exact NOTIFY block of the spec's scenario 2 (broken start line with
the trailing space; final header line not CRLF-terminated). -/
def sampleNotifyDatagram : List Char :=
  ("NOTIFY * HTTP/1.1 \r\n" ++
   "HOST: 239.255.255.250:1800\r\n" ++
   "DeviceName: Device Name_9999-H0020000-07-12345\r\n" ++
   "DeviceID: 0123456789ab\r\n" ++
   "DeviceState: F,S,P\r\n" ++
   "PORT: 7777\r\n" ++
   "ZoneID: \r\n" ++
   "Creator: \r\n" ++
   "IPAddr: 192.168.178.75\r\n" ++
   "ColorCode: 2003\r\n" ++
   "FWVersion: 809;1,1;1,1\r\n" ++
   "StereoPairID: ").toList

/-- A datagram whose method is `M-SEARCH`. -/
def msearchDatagram : List Char :=
  ("M-SEARCH * HTTP/1.1\r\n" ++ "HOST: 239.255.255.250:1800\r\n").toList

set_option maxRecDepth 8192 in
/-- C7 (confirmed).  The discovery parser (1) treats a datagram starting
with the broken `"NOTIFY * HTTP/1.1 \r\n"` start line exactly like the same
datagram with the single extra space stripped; (2) fails with the
unexpected-method error whenever the parsed method is not `NOTIFY` (e.g.
`M-SEARCH`) and with the unexpected-path error when the method is `NOTIFY`
but the path is not `*`; (3) accepts the exact scenario-2 sample with
`port = 7777` and `ip_address = 192.168.178.75`, and rejects the `M-SEARCH`
datagram. -/
theorem discovery_parse_spec :
    (∀ rest : List Char,
      DiscoveryReply.parse (brokenNotifyStart ++ rest) =
        DiscoveryReply.parse (fixedNotifyStart ++ rest)) ∧
    (∀ input req, httpRequestParse (fixBrokenStartLine input) = .ok req →
      req.method ≠ "NOTIFY".toList →
      DiscoveryReply.parse input =
        .err ("unexpected method: " ++ String.mk req.method)) ∧
    (∀ input req, httpRequestParse (fixBrokenStartLine input) = .ok req →
      req.method = "NOTIFY".toList → req.path ≠ "*".toList →
      DiscoveryReply.parse input =
        .err ("unexpected path: " ++ String.mk req.path)) ∧
    (DiscoveryReply.parse sampleNotifyDatagram = .ok
      { device_name := "Device Name_9999-H0020000-07-12345".toList,
        device_id := "0123456789ab".toList,
        device_state := "F,S,P".toList,
        port := 7777,
        zone_id := [],
        creator := [],
        ip_address := IpAddr.v4 192 168 178 75,
        color_code := "2003".toList,
        firmware_version := "809;1,1;1,1".toList,
        stereo_pair_id := [] }) ∧
    (DiscoveryReply.parse msearchDatagram =
      .err ("unexpected method: " ++ String.mk "M-SEARCH".toList)) := by
  refine ⟨?_, ?_, ?_, by decide, by decide⟩
  · intro rest
    have h1 : fixBrokenStartLine (brokenNotifyStart ++ rest) =
        fixedNotifyStart ++ rest := by
      rw [fixBrokenStartLine, if_pos]
      · rw [List.drop_left]
      · rw [List.isPrefixOf_iff_prefix]
        exact List.prefix_append _ _
    have h2 : fixBrokenStartLine (fixedNotifyStart ++ rest) =
        fixedNotifyStart ++ rest := by
      rw [fixBrokenStartLine, if_neg]
      rw [show brokenNotifyStart.isPrefixOf (fixedNotifyStart ++ rest) = false
        from rfl]
      exact Bool.false_ne_true
    rw [DiscoveryReply.parse, DiscoveryReply.parse, h1, h2]
  · intro input req hreq hm
    rw [DiscoveryReply.parse, DiscoveryReply.parseFixed, hreq]
    simp [hm]
    intro h
    exact absurd h hm
  · intro input req hreq hm hp
    rw [DiscoveryReply.parse, DiscoveryReply.parseFixed, hreq]
    simp [hm, hp]
    intro h
    exact absurd h hp

/-- C7 (witness): the start-line equivalence at a one-byte tail, and the
method check applied to the concrete `M-SEARCH` datagram. -/
theorem discovery_parse_spec_witness :
    DiscoveryReply.parse (brokenNotifyStart ++ ['X']) =
      DiscoveryReply.parse (fixedNotifyStart ++ ['X']) ∧
    DiscoveryReply.parse msearchDatagram =
      .err ("unexpected method: " ++ String.mk "M-SEARCH".toList) :=
  ⟨discovery_parse_spec.1 ['X'],
   discovery_parse_spec.2.1 msearchDatagram
     { method := "M-SEARCH".toList, path := "*".toList,
       headers := [("HOST".toList, "239.255.255.250:1800".toList)] }
     (by decide) (by decide)⟩

end Libratone
